import Mathlib

/-!
Verification of the pico-automation-hat bridging layer.

The definitions below are a shallow embedding of the repository's code:

* `src/host/automation2040w.py` — host-side serial library (`_send_command`
  read loop and response decoding, the `relay` / `output` wire encoders);
* `src/firmware-python/main.py` — the device firmware command interpreter
  (`parse_command` and the `cmd_*` handlers);
* `src/host/service/automation_service.py` — the host service (HTTP
  handlers, MQTT message handler, the board worker loop, health/status).

Python strings become Lean `String`, machine integers become `Int`/`Nat`,
the firmware's floats (output levels 0.0–1.0, ADC volts) become `ℚ`,
raised exceptions become `Except`/explicit error constructors, and the
serial wire becomes an explicit trace of the lines written to it.
-/

namespace PicoAutomation

/-! ## String primitives

Computable models of the Python string operations used by the code, defined
over `String.data` so that every definition evaluates inside the kernel.
-/

/-- Python `s.startswith(p)`. -/
def pyStartsWith (s p : String) : Bool :=
  p.data.isPrefixOf s.data

/-- Python `s.endswith(p)`. -/
def pyEndsWith (s p : String) : Bool :=
  p.data.isSuffixOf s.data

/-- Python `s[n:]` (also used for `str` slices like `response[4:]`). -/
def pyDrop (s : String) (n : Nat) : String :=
  ⟨s.data.drop n⟩

/-- Python `s.strip()`. -/
def pyStrip (s : String) : String :=
  ⟨((s.data.dropWhile Char.isWhitespace).reverse.dropWhile Char.isWhitespace).reverse⟩

/-- Python `s.rstrip("?")`. -/
def pyRstripQ (s : String) : String :=
  ⟨(s.data.reverse.dropWhile (· = '?')).reverse⟩

/-- Python `s.upper()` (the code only feeds it ASCII). -/
def pyUpper (s : String) : String :=
  ⟨s.data.map Char.toUpper⟩

/-- Python `s.split()` — split on whitespace runs, dropping empty pieces. -/
def pySplitWs (s : String) : List String :=
  ((s.data.splitOnP Char.isWhitespace).filter (· ≠ [])).map String.mk

/-- Python `s.split(c)` for a one-character separator (keeps empty pieces). -/
def pySplitOn (s : String) (c : Char) : List String :=
  (s.data.splitOn c).map String.mk

/-- Python `sep.join(ls)`. -/
def pyJoin (sep : String) (ls : List String) : String :=
  ⟨sep.data.intercalate (ls.map String.data)⟩

example : pyStartsWith "OK PONG" "OK" = true := by decide
example : pyStrip "  hi \n" = "hi" := by decide
example : pySplitWs " RELAY  1  ON " = ["RELAY", "1", "ON"] := by decide
example : pySplitOn "automation/relay/2" '/' = ["automation", "relay", "2"] := by decide

/-! ## Protocol codec: host response decoding

`Automation2040W._send_command` (src/host/automation2040w.py lines 168–215)
writes `f"{command}\n"` to the serial port, then reads lines until it sees
an empty line (read timeout / stream close), skipping lines that start
with `#` and stopping after the first line that starts with `OK`, `ERR`
or `{`.
-/

/-- A line that terminates the read loop: starts with `OK`, `ERR` or `{`
(automation2040w.py line 199). -/
def isTerminating (l : String) : Bool :=
  pyStartsWith l "OK" || pyStartsWith l "ERR" || pyStartsWith l "\x7b"

/-- The read loop of `_send_command` (automation2040w.py lines 189–200).
The input models the sequence of stripped lines delivered by
`self.serial.readline()`; a list end (or an explicit `""` entry) models a
read timeout or closed stream, which makes `readline` return `b""`. -/
def readLoop : List String → List String
  | [] => []
  | l :: rest =>
    if l = "" then []
    else if pyStartsWith l "#" then readLoop rest
    else if isTerminating l then [l]
    else l :: readLoop rest

/-- Outcome of `_send_command`: a successful response string, or a raised
`CommandError` (the library defines no `ProtocolError`; its exception
classes are `Automation2040WError`, `ConnectionError`, `CommandError`). -/
inductive SendResult where
  | ok (resp : String)
  | cmdError (msg : String)
deriving DecidableEq, Repr

/-- Decoding of the accumulated lines (automation2040w.py lines 202–215):
no lines at all raises `CommandError("No response from board")`; a joined
response starting with `ERR` raises `CommandError(response[4:])`; an `OK`
prefix is stripped (`response[2:].strip()`); anything else is returned
verbatim as a success. -/
def decodeResponse (stream : List String) : SendResult :=
  let lines := readLoop stream
  if lines = [] then
    .cmdError "No response from board"
  else
    let response := pyJoin "\n" lines
    if pyStartsWith response "ERR" then
      .cmdError (pyDrop response 4)
    else if pyStartsWith response "OK" then
      .ok (pyStrip (pyDrop response 2))
    else
      .ok response

example : decodeResponse ["OK PONG"] = .ok "PONG" := by decide
example : decodeResponse ["# noise", "OK"] = .ok "" := by decide
example : decodeResponse ["FOO"] = .ok "FOO" := by decide
example : decodeResponse [""] = .cmdError "No response from board" := by decide
example : decodeResponse ["ERR bad"] = .cmdError "bad" := by decide

/-! ## Numeric parsing

Models of Python `int(s)` and `float(s)`. `int` accepts optional surrounding
whitespace, an optional sign and a nonempty digit run; `float` additionally
accepts a fractional part (the scientific-notation forms `float` also accepts
never occur on this system's wire). A `none` result models the raised
`ValueError`. -/

/-- Value of a digit run. -/
def digitsVal (l : List Char) : Nat :=
  l.foldl (fun a c => a * 10 + (c.toNat - 48)) 0

/-- Python `int(s)`. -/
def pyInt? (s : String) : Option Int :=
  let t := (pyStrip s).data
  let core : Int × List Char :=
    match t with
    | '-' :: rest => (-1, rest)
    | '+' :: rest => (1, rest)
    | _ => (1, t)
  if core.2 ≠ [] ∧ core.2.all Char.isDigit then
    some (core.1 * (digitsVal core.2 : Int))
  else
    none

/-- Python `float(s)` as an exact rational. -/
def pyFloat? (s : String) : Option ℚ :=
  let t := (pyStrip s).data
  let core : ℚ × List Char :=
    match t with
    | '-' :: rest => (-1, rest)
    | '+' :: rest => (1, rest)
    | _ => (1, t)
  match core.2.splitOn '.' with
  | [d] =>
      if d ≠ [] ∧ d.all Char.isDigit then some (core.1 * (digitsVal d : ℚ)) else none
  | [d, f] =>
      if (d ≠ [] ∨ f ≠ []) ∧ d.all Char.isDigit ∧ f.all Char.isDigit then
        some (core.1 * ((digitsVal d : ℚ) + (digitsVal f : ℚ) / (10 ^ f.length)))
      else none
  | _ => none

/-- Python `int(q)` for a float value: truncation toward zero. -/
def pyTrunc (q : ℚ) : Int :=
  if q < 0 then ⌈q⌉ else ⌊q⌋

example : pyInt? "150" = some 150 := by decide
example : pyInt? " -7 " = some (-7) := by decide
example : pyInt? "BANANA" = none := by decide
example : (pyFloat? "33.5").isSome = true := by decide
example : (pyFloat? "ON").isNone = true := by decide

/-- Python `min(a, b)` on floats. -/
def pyMinQ (a b : ℚ) : ℚ := if b < a then b else a

/-- Python `max(a, b)` on floats. -/
def pyMaxQ (a b : ℚ) : ℚ := if a < b then b else a

/-- Python `min(a, b)` on ints. -/
def pyMinI (a b : Int) : Int := if b < a then b else a

/-- Python `max(a, b)` on ints. -/
def pyMaxI (a b : Int) : Int := if a < b then b else a

/-- Decimal rendering of a `Nat` (fuel-based so it evaluates in the kernel). -/
def natDigitsAux : Nat → Nat → List Char
  | 0, _ => []
  | fuel + 1, n =>
      if n < 10 then [Char.ofNat (48 + n)]
      else natDigitsAux fuel (n / 10) ++ [Char.ofNat (48 + n % 10)]

/-- Python `str(n)` for a nonnegative integer. -/
def pyStrNat (n : Nat) : String := ⟨natDigitsAux (n + 1) n⟩

/-- Python `str(i)` / f-string formatting of an int. -/
def pyStrInt (i : Int) : String :=
  (if i < 0 then "-" else "") ++ pyStrNat i.natAbs

example : pyStrInt 150 = "150" := by decide
example : pyStrInt (-7) = "-7" := by decide

/-! ## Device firmware: `src/firmware-python/main.py`

The firmware interprets one command line at a time against the board's I/O
state and prints response lines (`AutomationController.parse_command` and
the `cmd_*` handlers). Channel counts are those of the standard
Automation 2040 W board (`board_type="standard"`): 3 relays, 3 outputs,
4 inputs, 3 ADCs. Output levels are stored 0.0–1.0 as in the Pimoroni
driver, modelled as `ℚ`.
-/

def NUM_RELAYS : Int := 3
def NUM_OUTPUTS : Int := 3
def NUM_INPUTS : Int := 4
def NUM_ADCS : Int := 3

/-- Device-side I/O state (the Pimoroni driver object behind
`AutomationController.board`). Inputs, ADC readings and button states are
read-only environment values. -/
structure Board where
  relays : List Bool
  outputs : List ℚ
  inputs : List Bool
  adcs : List ℚ
  buttonA : Bool
  buttonB : Bool
  ledA : Int
  ledB : Int
deriving DecidableEq, Repr

/-- The board as it powers up: everything off/zero. -/
def initBoard : Board :=
  ⟨[false, false, false], [0, 0, 0], [false, false, false, false], [0, 0, 0],
   false, false, 0, 0⟩

/-- Firmware version constant (`VERSION = "1.0.0"`). -/
def VERSION : String := "1.0.0"

/-- `f"{v:.3f}"`-style rendering used by `cmd_adc` (and, with one digit, by
the STATUS JSON). The values this system produces are exact multiples of
the rendered precision, where round-half-up agrees with Python rounding. -/
def fmtFixed (digits : Nat) (q : ℚ) : String :=
  let scale : ℚ := 10 ^ digits
  let m : Int := ⌊q * scale + 1/2⌋
  let n := m.natAbs
  let fracStr := pyStrNat (n % (10 ^ digits))
  let pad := String.mk (List.replicate (digits - fracStr.length) '0')
  (if m < 0 then "-" else "") ++ pyStrNat (n / 10 ^ digits) ++ "." ++ pad ++ fracStr

/-- JSON rendering of a bool. -/
def boolJson (b : Bool) : String := if b then "true" else "false"

/-- JSON rendering of a list (the `json.dumps` layout: `", "` separators). -/
def jsonList {α : Type} (f : α → String) (l : List α) : String :=
  "[" ++ pyJoin ", " (l.map f) ++ "]"

/-- `cmd_status` (firmware main.py lines 274–306): all I/O states as one
JSON line. Output levels are published as `round(output * 100, 1)` and ADC
readings as `round(adc, 3)`; CPython's `repr`-level trimming of trailing
float zeros is not reproduced — the digits themselves agree for the exact
values this model produces. -/
def statusJson (b : Board) : String :=
  "\x7b\"relays\": " ++ jsonList boolJson b.relays ++
  ", \"outputs\": " ++ jsonList (fun v => fmtFixed 1 (v * 100)) b.outputs ++
  ", \"inputs\": " ++ jsonList boolJson b.inputs ++
  ", \"adcs\": " ++ jsonList (fmtFixed 3) b.adcs ++
  ", \"buttons\": \x7b\"a\": " ++ boolJson b.buttonA ++
  ", \"b\": " ++ boolJson b.buttonB ++ "\x7d\x7d"

/-- The multi-line `cmd_help` text (firmware main.py lines 313–334), as the
lines it puts on the wire, with the standard board's channel counts
substituted by `str.format`. -/
def helpLines : List String :=
  ["OK Commands:",
   "RELAY <n> <ON|OFF>   - Set relay (1-3)",
   "RELAY <n>?           - Query relay state",
   "OUTPUT <n> <0-100>   - Set output PWM % (1-3)",
   "OUTPUT <n> <ON|OFF>  - Set output full on/off",
   "OUTPUT <n>?          - Query output state",
   "INPUT <n>?           - Query input (1-4)",
   "ADC <n>?             - Query ADC voltage (1-3)",
   "LED <A|B> <0-100>    - Set button LED brightness",
   "BUTTON <A|B>?        - Query button state",
   "STATUS               - Get all states as JSON",
   "RESET                - Reset to safe state",
   "VERSION              - Show firmware version",
   "PING                 - Test connection"]

/-- Exception message for a failing `int()` — the literal CPython text
carries the offending string; only the type name matters to callers. -/
def valueErrorInt : String := "ValueError: invalid literal for int()"

/-- Exception message for a failing `float()`. -/
def valueErrorFloat : String := "ValueError: could not convert string to float"

/-- `cmd_relay` (firmware main.py lines 113–151). An `Except.error` models
an exception escaping to `parse_command`'s `except` clause. -/
def cmd_relay (b : Board) (args : List String) : Except String (Board × List String) :=
  match args with
  | [] => .ok (b, ["ERR RELAY requires arguments"])
  | a0 :: rest =>
    if pyEndsWith a0 "?" then
      match pyInt? (pyRstripQ a0) with
      | none => .error valueErrorInt
      | some i =>
        let index := i - 1
        if ¬ (0 ≤ index ∧ index < NUM_RELAYS) then
          .ok (b, ["ERR Relay index out of range (1-" ++ pyStrInt NUM_RELAYS ++ ")"])
        else
          let state := b.relays.getD index.natAbs false
          .ok (b, ["OK " ++ if state then "ON" else "OFF"])
    else
      match rest with
      | [] => .ok (b, ["ERR RELAY requires index and state (ON/OFF)"])
      | a1 :: _ =>
        match pyInt? a0 with
        | none => .error valueErrorInt
        | some i =>
          let index := i - 1
          if ¬ (0 ≤ index ∧ index < NUM_RELAYS) then
            .ok (b, ["ERR Relay index out of range (1-" ++ pyStrInt NUM_RELAYS ++ ")"])
          else
            let state := a1 = "ON" ∨ a1 = "1" ∨ a1 = "TRUE" ∨ a1 = "HIGH"
            .ok ({ b with relays := b.relays.set index.natAbs (decide state) }, ["OK"])

/-- `cmd_output` (firmware main.py lines 153–196). Note the value clamp
`max(0.0, min(1.0, value))` on the set path: out-of-range percentages are
accepted and clamped, not rejected. -/
def cmd_output (b : Board) (args : List String) : Except String (Board × List String) :=
  match args with
  | [] => .ok (b, ["ERR OUTPUT requires arguments"])
  | a0 :: rest =>
    if pyEndsWith a0 "?" then
      match pyInt? (pyRstripQ a0) with
      | none => .error valueErrorInt
      | some i =>
        let index := i - 1
        if ¬ (0 ≤ index ∧ index < NUM_OUTPUTS) then
          .ok (b, ["ERR Output index out of range (1-" ++ pyStrInt NUM_OUTPUTS ++ ")"])
        else
          let value := b.outputs.getD index.natAbs 0
          .ok (b, ["OK " ++ pyStrInt (pyTrunc (value * 100))])
    else
      match rest with
      | [] => .ok (b, ["ERR OUTPUT requires index and value (0-100 or ON/OFF)"])
      | a1 :: _ =>
        match pyInt? a0 with
        | none => .error valueErrorInt
        | some i =>
          let index := i - 1
          if ¬ (0 ≤ index ∧ index < NUM_OUTPUTS) then
            .ok (b, ["ERR Output index out of range (1-" ++ pyStrInt NUM_OUTPUTS ++ ")"])
          else if a1 = "ON" ∨ a1 = "TRUE" ∨ a1 = "HIGH" then
            .ok ({ b with outputs := b.outputs.set index.natAbs 1 }, ["OK"])
          else if a1 = "OFF" ∨ a1 = "FALSE" ∨ a1 = "LOW" then
            .ok ({ b with outputs := b.outputs.set index.natAbs 0 }, ["OK"])
          else
            match pyFloat? a1 with
            | none => .error valueErrorFloat
            | some raw =>
              let value := pyMaxQ 0 (pyMinQ 1 (raw / 100))
              .ok ({ b with outputs := b.outputs.set index.natAbs value }, ["OK"])

/-- `cmd_input` (firmware main.py lines 198–214). -/
def cmd_input (b : Board) (args : List String) : Except String (Board × List String) :=
  match args with
  | [] => .ok (b, ["ERR INPUT requires index"])
  | a0 :: _ =>
    match pyInt? (pyRstripQ a0) with
    | none => .error valueErrorInt
    | some i =>
      let index := i - 1
      if ¬ (0 ≤ index ∧ index < NUM_INPUTS) then
        .ok (b, ["ERR Input index out of range (1-" ++ pyStrInt NUM_INPUTS ++ ")"])
      else
        let value := b.inputs.getD index.natAbs false
        .ok (b, ["OK " ++ if value then "HIGH" else "LOW"])

/-- `cmd_adc` (firmware main.py lines 216–230). -/
def cmd_adc (b : Board) (args : List String) : Except String (Board × List String) :=
  match args with
  | [] => .ok (b, ["ERR ADC requires index"])
  | a0 :: _ =>
    match pyInt? (pyRstripQ a0) with
    | none => .error valueErrorInt
    | some i =>
      let index := i - 1
      if ¬ (0 ≤ index ∧ index < NUM_ADCS) then
        .ok (b, ["ERR ADC index out of range (1-" ++ pyStrInt NUM_ADCS ++ ")"])
      else
        let voltage := b.adcs.getD index.natAbs 0
        .ok (b, ["OK " ++ fmtFixed 3 voltage])

/-- `cmd_led` (firmware main.py lines 232–254). -/
def cmd_led (b : Board) (args : List String) : Except String (Board × List String) :=
  match args with
  | [] => .ok (b, ["ERR LED requires button (A/B) and brightness"])
  | a0 :: rest =>
    if a0 ≠ "A" ∧ a0 ≠ "B" then
      .ok (b, ["ERR LED button must be A or B"])
    else
      match rest with
      | [] => .ok (b, ["ERR LED requires brightness (0-100)"])
      | a1 :: _ =>
        match pyInt? a1 with
        | none => .error valueErrorInt
        | some raw =>
          let brightness := pyMaxI 0 (pyMinI 100 raw)
          if a0 = "A" then .ok ({ b with ledA := brightness }, ["OK"])
          else .ok ({ b with ledB := brightness }, ["OK"])

/-- `cmd_button` (firmware main.py lines 256–272). -/
def cmd_button (b : Board) (args : List String) : Except String (Board × List String) :=
  match args with
  | [] => .ok (b, ["ERR BUTTON requires button (A/B)"])
  | a0 :: _ =>
    let name := pyRstripQ a0
    if name = "A" then
      .ok (b, ["OK " ++ if b.buttonA then "PRESSED" else "RELEASED"])
    else if name = "B" then
      .ok (b, ["OK " ++ if b.buttonB then "PRESSED" else "RELEASED"])
    else
      .ok (b, ["ERR BUTTON must be A or B"])

/-- `cmd_reset` / `board.reset()` (firmware main.py lines 308–311): all
relays and outputs to their safe off state. -/
def cmd_reset (b : Board) : Board × List String :=
  ({ b with relays := b.relays.map (fun _ => false),
            outputs := b.outputs.map (fun _ => 0) }, ["OK"])

/-- `parse_command` (firmware main.py lines 72–111): strip, ignore blank or
comment lines, uppercase, split on whitespace, dispatch; any exception from
a handler is answered as `ERR <type>: <message>`. -/
def parse_command (b : Board) (line : String) : Board × List String :=
  let line := pyStrip line
  if line = "" ∨ pyStartsWith line "#" then (b, [])
  else
    match pySplitWs (pyUpper line) with
    | [] => (b, [])
    | cmd :: args =>
      let res : Except String (Board × List String) :=
        if cmd = "RELAY" then cmd_relay b args
        else if cmd = "OUTPUT" then cmd_output b args
        else if cmd = "INPUT" then cmd_input b args
        else if cmd = "ADC" then cmd_adc b args
        else if cmd = "LED" then cmd_led b args
        else if cmd = "BUTTON" then cmd_button b args
        else if cmd = "STATUS" then .ok (b, [statusJson b])
        else if cmd = "RESET" then .ok (cmd_reset b)
        else if cmd = "VERSION" then .ok (b, ["OK " ++ VERSION])
        else if cmd = "HELP" then .ok (b, helpLines)
        else if cmd = "PING" then .ok (b, ["OK PONG"])
        else .ok (b, ["ERR Unknown command: " ++ cmd])
      match res with
      | .ok r => r
      | .error e => (b, ["ERR " ++ e])

example : (parse_command initBoard "PING").2 = ["OK PONG"] := by decide
example : (parse_command initBoard "relay 1 on").2 = ["OK"] := by decide
example : (parse_command initBoard "RELAY 9 ON").2 = ["ERR Relay index out of range (1-3)"] := by decide
example : (parse_command initBoard "OUTPUT 1 150").2 = ["OK"] := by decide
example : (parse_command initBoard "OUTPUT 9 50").2 = ["ERR Output index out of range (1-3)"] := by decide
example : (parse_command initBoard "BOGUS").2 = ["ERR Unknown command: BOGUS"] := by decide
example : (parse_command initBoard "# hi").2 = [] := by decide

/-! ## Host service: `src/host/service/automation_service.py`

`AutomationService` holds the mutable service state (lines 76–81): the
board connection flag, the last polled status dict, the cumulative error
count, and the running flag. The serial wire is modelled explicitly as the
list of command lines written to the transport; because every command the
service writes gets its reply from the device firmware, a send runs
`parse_command` on the device state and decodes the reply with the host
codec (a loopback of the real round trip).
-/

/-- A JSON scalar, as found in an HTTP request body or produced by a
handler (`request.get_json()` / `jsonify`). -/
inductive JVal where
  | s (v : String)
  | i (v : Int)
  | b (v : Bool)
  | null
deriving DecidableEq, Repr

/-- A JSON object: ordered field list. -/
abbrev JObj := List (String × JVal)

/-- Python `dict.get(k)` on a JSON object. -/
def jget (o : JObj) (k : String) : Option JVal :=
  (o.find? (fun p => p.1 = k)).map (fun p => p.2)

/-- Python truthiness of a JSON scalar (`if state:` on a decoded value). -/
def pyTruthy : JVal → Bool
  | .s v => v ≠ ""
  | .i v => v ≠ 0
  | .b v => v
  | .null => false

/-- The device status snapshot the service caches (`self.last_status`,
decoded from the firmware's STATUS JSON). -/
structure Status where
  relays : List Bool
  outputs : List ℚ
  inputs : List Bool
  adcs : List ℚ
  buttonA : Bool
  buttonB : Bool
deriving DecidableEq, Repr

/-- Cache contents before the first successful poll (`self.last_status = {}`). -/
def emptyStatus : Status := ⟨[], [], [], [], false, false⟩

/-- Mutable state of `AutomationService` plus the device it talks to and
the trace of command lines written to the serial transport. -/
structure HostState where
  board_connected : Bool
  mqtt_connected : Bool
  running : Bool
  error_count : Nat
  last_status : Status
  board : Board
  sent : List String
deriving DecidableEq, Repr

/-- A connected service that has not polled or sent anything yet. -/
def stConnected : HostState :=
  ⟨true, false, true, 0, emptyStatus, initBoard, []⟩

/-- A service whose board is disconnected. -/
def stDisconnected : HostState :=
  ⟨false, false, true, 0, emptyStatus, initBoard, []⟩

/-- One host-to-device round trip: `_send_command` writes the command line
to the transport and decodes the lines the firmware prints back
(automation2040w.py lines 168–215 against firmware main.py). -/
def boardSend (st : HostState) (cmd : String) : HostState × SendResult :=
  let dev := parse_command st.board cmd
  ({ st with board := dev.1, sent := st.sent ++ [cmd] }, decodeResponse dev.2)

/-- The wire line of `board.relay(index, state)` for a truthy/falsy state
(automation2040w.py line 236). -/
def relayWire (index : Int) (state : Bool) : String :=
  "RELAY " ++ pyStrInt index ++ " " ++ (if state then "ON" else "OFF")

/-- The wire line of `board.output(index, value)`
(automation2040w.py lines 256–259): a bool is first mapped to 100/0, any
other value is formatted into the command as-is. -/
def outputWire (index : Int) : JVal → String
  | .b bv => "OUTPUT " ++ pyStrInt index ++ " " ++ (if bv then "100" else "0")
  | .i n => "OUTPUT " ++ pyStrInt index ++ " " ++ pyStrInt n
  | .s v => "OUTPUT " ++ pyStrInt index ++ " " ++ v
  | .null => "OUTPUT " ++ pyStrInt index ++ " None"

/-- An HTTP response: status code plus JSON body — either a literal object
built by the handler or the cached status document (`jsonify(self.last_status)`). -/
inductive RespBody where
  | obj (fields : JObj)
  | statusDoc (s : Status)
deriving DecidableEq, Repr

/-- HTTP reply (status code, body). -/
structure HttpReply where
  code : Nat
  body : RespBody
deriving DecidableEq, Repr

/-- The `503 {"error": "Board not connected"}` reply shared by all
board-backed endpoints. -/
def notConnectedReply : HttpReply :=
  ⟨503, .obj [("error", .s "Board not connected")]⟩

/-- `POST /api/relay/<int:relay_num>` (automation_service.py lines 183–199).
`reqBody` is the decoded JSON body (`none` when `request.get_json()` yields
nothing, making `data = {}`); a missing `"state"` field defaults to `True`.
A JSON `null` state reaches the library's query branch (`state is None` in
`Automation2040W.relay`), any other value is formatted by truthiness.
A `CommandError` from the round trip is answered as a 500. -/
def control_relay (st : HostState) (relay_num : Int) (reqBody : Option JObj) :
    HostState × HttpReply :=
  if st.board_connected = false then
    (st, notConnectedReply)
  else
    let data := reqBody.getD []
    let state := (jget data "state").getD (JVal.b true)
    if state = JVal.null then
      let r := boardSend st ("RELAY " ++ pyStrInt relay_num ++ "?")
      match r.2 with
      | .ok _ =>
          (r.1, ⟨200, .obj [("status", .s "ok"), ("relay", .i relay_num), ("state", .null)]⟩)
      | .cmdError m => (r.1, ⟨500, .obj [("error", .s m)]⟩)
    else
      let r := boardSend st (relayWire relay_num (pyTruthy state))
      match r.2 with
      | .ok _ =>
          (r.1, ⟨200, .obj [("status", .s "ok"), ("relay", .i relay_num), ("state", state)]⟩)
      | .cmdError m => (r.1, ⟨500, .obj [("error", .s m)]⟩)

/-- `POST /api/output/<int:output_num>` (automation_service.py lines
201–217). A missing `"value"` field defaults to `100`; a JSON `null`
reaches the library's query branch (whose `int(response)` may itself
raise); any other value is pasted into the wire command unchanged by
`Automation2040W.output`. -/
def control_output (st : HostState) (output_num : Int) (reqBody : Option JObj) :
    HostState × HttpReply :=
  if st.board_connected = false then
    (st, notConnectedReply)
  else
    let data := reqBody.getD []
    let value := (jget data "value").getD (JVal.i 100)
    if value = JVal.null then
      let r := boardSend st ("OUTPUT " ++ pyStrInt output_num ++ "?")
      match r.2 with
      | .ok resp =>
          match pyInt? resp with
          | some _ =>
              (r.1, ⟨200, .obj [("status", .s "ok"), ("output", .i output_num), ("value", .null)]⟩)
          | none => (r.1, ⟨500, .obj [("error", .s valueErrorInt)]⟩)
      | .cmdError m => (r.1, ⟨500, .obj [("error", .s m)]⟩)
    else
      let r := boardSend st (outputWire output_num value)
      match r.2 with
      | .ok _ =>
          (r.1, ⟨200, .obj [("status", .s "ok"), ("output", .i output_num), ("value", value)]⟩)
      | .cmdError m => (r.1, ⟨500, .obj [("error", .s m)]⟩)

/-- `POST /api/reset` (automation_service.py lines 219–232). -/
def api_reset (st : HostState) : HostState × HttpReply :=
  if st.board_connected = false then
    (st, notConnectedReply)
  else
    let r := boardSend st "RESET"
    match r.2 with
    | .ok _ => (r.1, ⟨200, .obj [("status", .s "ok")]⟩)
    | .cmdError m => (r.1, ⟨500, .obj [("error", .s m)]⟩)

/-- `GET /api/status` (automation_service.py lines 175–181): the cached
snapshot, or 503 while the board is disconnected. Read-only. -/
def api_status (st : HostState) : HttpReply :=
  if st.board_connected = false then notConnectedReply
  else ⟨200, .statusDoc st.last_status⟩

/-- The fields of the `GET /api/health` reply that depend on service state
(automation_service.py lines 157–173); `uptime_seconds`, `mqtt_broker`,
`mqtt_topic_prefix` and `last_update` are wall-clock/configuration values
outside this model. -/
structure HealthReply where
  status : String
  board_connected : Bool
  mqtt_connected : Bool
  error_count : Nat
deriving DecidableEq, Repr

/-- `GET /api/health`. Read-only. -/
def health (st : HostState) : HealthReply :=
  ⟨if st.running then "healthy" else "stopped",
   st.board_connected, st.mqtt_connected, st.error_count⟩

/-- How one inbound MQTT message ends: ignored (board down or unmatched
topic/payload), acted on, or an exception caught and logged by the
handler's `except Exception` clause. -/
inductive MqttOutcome where
  | ignored
  | actedRelay (n : Int) (state : Bool)
  | actedOutput (n : Int) (v : Int)
  | actedReset
  | actedStatus
  | caught (err : String)
deriving DecidableEq, Repr

/-- `on_mqtt_message` (automation_service.py lines 356–399). `topicRoot` is
`config["mqtt"]["topic_prefix"]` (default `"automation"`). The payload is
stripped and uppercased; the trailing topic segment is parsed with `int()`;
relay payloads map by membership in `("ON", "1", "TRUE")`; output payloads
map `ON|TRUE → 100`, `OFF|FALSE → 0`, anything else through `int()` with no
clamping. Every exception — a failing `int()` or a `CommandError` from the
board — is caught by the surrounding `except` and only logged. -/
def on_mqtt_message (topicRoot : String) (st : HostState) (topic rawPayload : String) :
    HostState × MqttOutcome :=
  let payload := pyUpper (pyStrip rawPayload)
  if st.board_connected = false then
    (st, .ignored)
  else if pyStartsWith topic (topicRoot ++ "/relay/") then
    match pyInt? ((pySplitOn topic '/').getLastD "") with
    | none => (st, .caught valueErrorInt)
    | some n =>
      let state : Bool := payload = "ON" || payload = "1" || payload = "TRUE"
      let r := boardSend st (relayWire n state)
      match r.2 with
      | .ok _ => (r.1, .actedRelay n state)
      | .cmdError m => (r.1, .caught m)
  else if pyStartsWith topic (topicRoot ++ "/output/") then
    match pyInt? ((pySplitOn topic '/').getLastD "") with
    | none => (st, .caught valueErrorInt)
    | some n =>
      let value? : Option Int :=
        if payload = "ON" || payload = "TRUE" then some 100
        else if payload = "OFF" || payload = "FALSE" then some 0
        else pyInt? payload
      match value? with
      | none => (st, .caught valueErrorInt)
      | some v =>
        let r := boardSend st (outputWire n (.i v))
        match r.2 with
        | .ok _ => (r.1, .actedOutput n v)
        | .cmdError m => (r.1, .caught m)
  else if topic = topicRoot ++ "/command" then
    if payload = "RESET" then
      let r := boardSend st "RESET"
      match r.2 with
      | .ok _ => (r.1, .actedReset)
      | .cmdError m => (r.1, .caught m)
    else if payload = "STATUS" then
      let r := boardSend st "STATUS"
      match r.2 with
      | .ok _ => (r.1, .actedStatus)
      | .cmdError m => (r.1, .caught m)
    else (st, .ignored)
  else (st, .ignored)

/-- An externally observable operation of the running service: one
iteration outcome of the board worker loop (`board_worker`,
automation_service.py lines 265–303), an MQTT connect/disconnect callback,
an HTTP request, or an inbound MQTT message. Poll and connect outcomes are
inputs because they depend on the physical link. -/
inductive Event where
  | pollOk (s : Status)
  | pollFail
  | connectOk
  | connectFail
  | mqttUp
  | mqttDown
  | httpRelay (n : Int) (reqBody : Option JObj)
  | httpOutput (n : Int) (reqBody : Option JObj)
  | httpReset
  | httpStatus
  | httpHealth
  | mqttMsg (topicRoot topic payload : String)

/-- State transition of the service. `pollOk` stores the fresh snapshot
(line 286); `pollFail` is the `except` path of the poll (lines 294–300):
`error_count += 1` followed by `disconnect_board()` — after a single
failure, with no failure-streak counter anywhere in the code. `connectOk`
is a successful `connect_board()` (lines 238–247), which touches no
counter. The read-only endpoints leave the state alone. -/
def step (st : HostState) : Event → HostState
  | .pollOk s => if st.board_connected then { st with last_status := s } else st
  | .pollFail =>
      if st.board_connected then
        { st with error_count := st.error_count + 1, board_connected := false }
      else st
  | .connectOk => if st.board_connected then st else { st with board_connected := true }
  | .connectFail => st
  | .mqttUp => { st with mqtt_connected := true }
  | .mqttDown => { st with mqtt_connected := false }
  | .httpRelay n reqBody => (control_relay st n reqBody).1
  | .httpOutput n reqBody => (control_output st n reqBody).1
  | .httpReset => (api_reset st).1
  | .httpStatus => st
  | .httpHealth => st
  | .mqttMsg topicRoot t p => (on_mqtt_message topicRoot st t p).1

example : (control_output stConnected 1 (some [("value", .i 150)])).1.sent
    = ["OUTPUT 1 150"] := by decide
example : (control_output stConnected 1 (some [("value", .i 150)])).2.code = 200 := by decide
example : (on_mqtt_message "automation" stConnected "automation/output/1" "150").1.sent
    = ["OUTPUT 1 150"] := by decide
example : (on_mqtt_message "automation" stConnected "automation/output/1" "banana").2
    = .caught valueErrorInt := by decide
example : (control_relay stDisconnected 1 (some [("state", .b false)])).2
    = notConnectedReply := by decide
example : (control_relay stConnected 2 none).1.sent = ["RELAY 2 ON"] := by decide

/-! ## Concurrent access to the transport

Three tasks call into `Automation2040W._send_command` concurrently: the
board worker thread (automation_service.py line 439), the paho-mqtt network
thread running `on_mqtt_message` (line 328, `loop_start`), and Flask's
thread-per-request handlers (line 423, `threaded=True`). `_send_command`
(automation2040w.py lines 168–215) performs `serial.write` followed by the
`readline` loop directly on the shared `serial.Serial` object and acquires
no lock of any kind — the words `Lock`, `Semaphore` and `Queue` do not
occur in the host sources — so the thread scheduler is free to order the
write and read steps of two in-flight calls arbitrarily. -/

/-- One transport operation of `_send_command`, tagged with the calling
thread: the `self.serial.write(f"{command}\n".encode())` of line 185, or
the `self.serial.readline()` loop of lines 189–200. -/
inductive Action where
  | write (tid : Nat) (cmd : String)
  | read (tid : Nat)
deriving DecidableEq, Repr

/-- The transport operations one `_send_command(cmd)` call performs, in
program order. -/
def threadActions (tid : Nat) (cmd : String) : List Action :=
  [.write tid cmd, .read tid]

/-- All schedules of two threads' operation sequences (each thread's own
program order preserved). Fuel-based so it evaluates in the kernel. -/
def interleavingsAux {α : Type} : Nat → List α → List α → List (List α)
  | 0, xs, ys => [xs ++ ys]
  | _ + 1, [], ys => [ys]
  | _ + 1, xs, [] => [xs]
  | fuel + 1, x :: xs, y :: ys =>
      ((interleavingsAux fuel xs (y :: ys)).map (x :: ·)) ++
      ((interleavingsAux fuel (x :: xs) ys).map (y :: ·))

/-- All schedules of two threads' operation sequences. -/
def interleavings {α : Type} (xs ys : List α) : List (List α) :=
  interleavingsAux (xs.length + ys.length) xs ys

/-- A wire trace with at most one command in flight: every write is
immediately followed by the same thread's read. -/
def serializedTrace : List Action → Bool
  | [] => true
  | .write t _ :: .read t' :: rest => t == t' && serializedTrace rest
  | _ => false

example : serializedTrace [.write 0 "PING", .read 0, .write 1 "PING", .read 1] = true := by
  decide
example :
    [Action.write 0 "STATUS", .write 1 "RELAY 1 ON", .read 0, .read 1]
      ∈ interleavings (threadActions 0 "STATUS") (threadActions 1 "RELAY 1 ON") := by decide

/-! ## Helper lemmas -/

/-- A send only appends to the wire trace and advances the device. -/
theorem boardSend_fst (st : HostState) (c : String) :
    (boardSend st c).1
      = { st with board := (parse_command st.board c).1, sent := st.sent ++ [c] } := rfl

/-- `control_relay` changes at most the device state and the wire trace. -/
theorem control_relay_shape (st : HostState) (n : Int) (reqBody : Option JObj) :
    ∃ b2 s2, (control_relay st n reqBody).1 = { st with board := b2, sent := s2 } := by
  unfold control_relay boardSend
  split
  · exact ⟨st.board, st.sent, rfl⟩
  · dsimp only
    split <;> (split <;> exact ⟨_, _, rfl⟩)

/-- `control_output` changes at most the device state and the wire trace. -/
theorem control_output_shape (st : HostState) (n : Int) (reqBody : Option JObj) :
    ∃ b2 s2, (control_output st n reqBody).1 = { st with board := b2, sent := s2 } := by
  unfold control_output boardSend
  split
  · exact ⟨st.board, st.sent, rfl⟩
  · dsimp only
    split
    · split
      · split <;> exact ⟨_, _, rfl⟩
      · exact ⟨_, _, rfl⟩
    · split <;> exact ⟨_, _, rfl⟩

/-- `api_reset` changes at most the device state and the wire trace. -/
theorem api_reset_shape (st : HostState) :
    ∃ b2 s2, (api_reset st).1 = { st with board := b2, sent := s2 } := by
  unfold api_reset boardSend
  split
  · exact ⟨st.board, st.sent, rfl⟩
  · dsimp only
    split <;> exact ⟨_, _, rfl⟩

set_option maxHeartbeats 1000000 in
/-- `on_mqtt_message` changes at most the device state and the wire trace. -/
theorem on_mqtt_message_shape (topicRoot : String) (st : HostState) (topic pay : String) :
    ∃ b2 s2, (on_mqtt_message topicRoot st topic pay).1
      = { st with board := b2, sent := s2 } := by
  unfold on_mqtt_message boardSend
  try dsimp only
  split
  · exact ⟨st.board, st.sent, rfl⟩
  · split
    · split
      · exact ⟨st.board, st.sent, rfl⟩
      · try dsimp only
        split <;> exact ⟨_, _, rfl⟩
    · split
      · split
        · exact ⟨st.board, st.sent, rfl⟩
        · try dsimp only
          split
          · exact ⟨st.board, st.sent, rfl⟩
          · split <;> exact ⟨_, _, rfl⟩
      · split
        · split
          · try dsimp only
            split <;> exact ⟨_, _, rfl⟩
          · split
            · try dsimp only
              split <;> exact ⟨_, _, rfl⟩
            · exact ⟨st.board, st.sent, rfl⟩
        · exact ⟨st.board, st.sent, rfl⟩

/-- A connected `control_output` with a non-null value writes exactly the
library's wire command for that value. -/
theorem control_output_sent (st : HostState) (n : Int) (reqBody : Option JObj) (v2 : JVal)
    (hc : st.board_connected = true)
    (hv : (jget (reqBody.getD []) "value").getD (JVal.i 100) = v2)
    (hnull : v2 ≠ JVal.null) :
    (control_output st n reqBody).1.sent = st.sent ++ [outputWire n v2] := by
  unfold control_output boardSend
  rw [if_neg (by simp [hc])]
  dsimp only
  rw [hv, if_neg hnull]
  split <;> rfl

/-- A connected `control_relay` with a non-null state writes exactly the
library's wire command for that state's truthiness. -/
theorem control_relay_sent (st : HostState) (n : Int) (reqBody : Option JObj) (v2 : JVal)
    (hc : st.board_connected = true)
    (hv : (jget (reqBody.getD []) "state").getD (JVal.b true) = v2)
    (hnull : v2 ≠ JVal.null) :
    (control_relay st n reqBody).1.sent = st.sent ++ [relayWire n (pyTruthy v2)] := by
  unfold control_relay boardSend
  rw [if_neg (by simp [hc])]
  dsimp only
  rw [hv, if_neg hnull]
  split <;> rfl

/-! ## Claim theorems -/

/-- C4, counterexample. The claim says a read that ends (times out) without
ever seeing a terminating line makes decoding fail by raising a
`ProtocolError`. On the code, a stream consisting of the single
non-terminating line `"FOO"` followed by a timeout is decoded as the
*successful* response `"FOO"`: the accumulated non-terminated lines are
returned as a `Response`, and no `ProtocolError` class exists in the
library at all. -/
theorem c4_counterexample :
    (∀ l ∈ ["FOO"], isTerminating l = false)
      ∧ decodeResponse ["FOO"] = SendResult.ok "FOO" := by decide

/-- C4, amended. When the read loop accumulates no line at all before the
timeout/close, `_send_command` raises `CommandError("No response from
board")` (not a `ProtocolError`, which does not exist). When it has
accumulated non-comment lines but no terminating one, the accumulation is
returned as a successful response rather than an error. -/
theorem c4_amended (stream : List String) :
    (readLoop stream = [] →
      decodeResponse stream = SendResult.cmdError "No response from board")
    ∧ (∀ l ls, readLoop stream = l :: ls →
        pyStartsWith (pyJoin "\n" (l :: ls)) "ERR" = false →
        pyStartsWith (pyJoin "\n" (l :: ls)) "OK" = false →
        decodeResponse stream = SendResult.ok (pyJoin "\n" (l :: ls))) := by
  constructor
  · intro h
    simp [decodeResponse, h]
  · intro l ls h hErr hOk
    simp [decodeResponse, h, hErr, hOk]

/-- C4, witness: the amended theorem applied to the concrete
non-terminated stream `["FOO"]`. -/
theorem c4_amended_witness : decodeResponse ["FOO"] = SendResult.ok (pyJoin "\n" ["FOO"]) :=
  (c4_amended ["FOO"]).2 "FOO" [] (by decide) (by decide) (by decide)

/-- C5, counterexample. The claim says a multi-line help listing is
returned in full. The firmware's help listing (`cmd_help`) starts with the
line `OK Commands:`, which itself matches the terminator, so the host read
loop stops after that very first of the 14 lines and the decoded response
is just `"Commands:"` — the listing is not returned in full. -/
theorem c5_counterexample :
    helpLines.length = 14
    ∧ readLoop helpLines = ["OK Commands:"]
    ∧ decodeResponse helpLines = SendResult.ok "Commands:" := by decide

/-- C5, amended. Decoding discards every line starting with `#` as a
comment and stops at the first non-comment line matching `OK`, `ERR` or
`{...}`; the accumulated response is the non-comment lines up to and
including that terminating line. (A listing whose first line itself starts
with `OK` — the firmware's help text — is therefore truncated to that
line.) -/
theorem c5_amended (pre rest : List String) (t : String)
    (hpre : ∀ l ∈ pre, l ≠ "" ∧ (pyStartsWith l "#" = true ∨ isTerminating l = false))
    (ht0 : t ≠ "") (ht1 : pyStartsWith t "#" = false) (ht2 : isTerminating t = true) :
    readLoop (pre ++ t :: rest)
      = pre.filter (fun l => ! pyStartsWith l "#") ++ [t] := by
  induction pre with
  | nil => simp [readLoop, ht0, ht1, ht2]
  | cons l pre ih =>
    obtain ⟨hne, hcase⟩ := hpre l (List.mem_cons_self l pre)
    have ih' := ih fun x hx => hpre x (List.mem_cons_of_mem l hx)
    by_cases hc : pyStartsWith l "#" = true
    · simp [readLoop, hne, hc, ih']
    · have hterm : isTerminating l = false := by
        rcases hcase with h | h
        · exact absurd h hc
        · exact h
      simp [readLoop, hne, hc, hterm, ih']

/-- C5, witness: the amended theorem applied to a concrete stream with a
leading comment, one body line, a terminating `OK` and trailing noise. -/
theorem c5_amended_witness :
    readLoop (["# boot noise", "Usage"] ++ "OK" :: ["late"])
      = (["# boot noise", "Usage"].filter (fun l => ! pyStartsWith l "#")) ++ ["OK"] :=
  c5_amended ["# boot noise", "Usage"] ["late"] "OK"
    (by decide) (by decide) (by decide) (by decide)

/-- C6, counterexample. The claim says the Link Manager serializes all
concurrent `send` calls so that the bytes of two commands never interleave
on the wire. `_send_command` takes no lock around its `serial.write` /
`readline` sequence, so the schedule in which thread 0 and thread 1 both
write before either reads is a legal interleaving of two concurrent calls
— and it is not serialized: two commands are in flight at once. -/
theorem c6_counterexample :
    ([Action.write 0 "STATUS", .write 1 "RELAY 1 ON", .read 0, .read 1]
        ∈ interleavings (threadActions 0 "STATUS") (threadActions 1 "RELAY 1 ON"))
    ∧ serializedTrace
        [Action.write 0 "STATUS", .write 1 "RELAY 1 ON", .read 0, .read 1] = false := by
  decide

/-- C6, amended. `_send_command` performs its write and read steps on the
shared serial object with no mutual exclusion, so among the schedules of
two concurrent `send` calls there is one whose wire operations interleave
— the code enforces no FIFO serialization and no at-most-one-in-flight
bound. -/
theorem c6_amended :
    ∃ tr ∈ interleavings (threadActions 0 "STATUS") (threadActions 1 "RELAY 2 OFF"),
      serializedTrace tr = false :=
  ⟨[.write 0 "STATUS", .write 1 "RELAY 2 OFF", .read 0, .read 1], by decide, by decide⟩

/-- C1, counterexample. The claim says an HTTP write with an out-of-domain
value (output value 150) is rejected by validation and never forwarded to
the serial transport. On the code, `POST /api/output/1` with body
`{"value": 150}` against a connected board puts `OUTPUT 1 150` on the wire
and answers HTTP 200 — there is no host-side validation at all (the device
firmware then clamps the value and replies `OK`). -/
theorem c1_counterexample :
    (control_output stConnected 1 (some [("value", JVal.i 150)])).1.sent = ["OUTPUT 1 150"]
    ∧ (control_output stConnected 1 (some [("value", JVal.i 150)])).2.code = 200
    ∧ ¬ (0 ≤ (150 : Int) ∧ (150 : Int) ≤ 100) := by decide

/-- C1, amended. While the board is connected, the HTTP handlers perform
no validation of the channel index or the value: whatever integer value
and index arrive in the request are formatted into the wire command and
written to the serial transport; any range handling happens on the device
(the firmware clamps output percentages and answers `ERR` for bad
indices, which the handler surfaces as a 500). -/
theorem c1_amended (st : HostState) (n v : Int) (bv : Bool)
    (hc : st.board_connected = true) :
    (control_output st n (some [("value", JVal.i v)])).1.sent
        = st.sent ++ [outputWire n (JVal.i v)]
    ∧ (control_relay st n (some [("state", JVal.b bv)])).1.sent
        = st.sent ++ [relayWire n bv] := by
  constructor
  · exact control_output_sent st n (some [("value", JVal.i v)]) (JVal.i v) hc
      (by simp [jget]) (by simp)
  · exact control_relay_sent st n (some [("state", JVal.b bv)]) (JVal.b bv) hc
      (by simp [jget]) (by simp)

/-- C1, witness: the amended theorem at output 1, value 150, relay 1,
state false, on a freshly connected service. -/
theorem c1_amended_witness :
    (control_output stConnected 1 (some [("value", JVal.i 150)])).1.sent
        = stConnected.sent ++ [outputWire 1 (JVal.i 150)]
    ∧ (control_relay stConnected 1 (some [("state", JVal.b false)])).1.sent
        = stConnected.sent ++ [relayWire 1 false] :=
  c1_amended stConnected 1 150 false rfl

/-- C2, counterexample. The claim says the poll loop disconnects only
after three consecutive poll failures, not after a single one. On the
code, one poll failure from a connected state already disconnects the
board: the `except` branch of `board_worker` increments the error counter
and immediately calls `disconnect_board()`. -/
theorem c2_counterexample :
    stConnected.board_connected = true
    ∧ (step stConnected Event.pollFail).board_connected = false := by decide

/-- C2, amended. Every single poll failure disconnects the board and
increments the cumulative error count by one; a subsequent successful
`connect_board()` restores the connected flag but clears nothing — no
failure-streak counter exists, and the error count stays at its
incremented value. -/
theorem c2_amended (st : HostState) (h : st.board_connected = true) :
    (step st Event.pollFail).board_connected = false
    ∧ (step st Event.pollFail).error_count = st.error_count + 1
    ∧ (step (step st Event.pollFail) Event.connectOk).board_connected = true
    ∧ (step (step st Event.pollFail) Event.connectOk).error_count = st.error_count + 1 := by
  simp [step, h]

/-- C2, witness: the amended theorem on a freshly connected service. -/
theorem c2_amended_witness :
    (step stConnected Event.pollFail).board_connected = false
    ∧ (step stConnected Event.pollFail).error_count = stConnected.error_count + 1
    ∧ (step (step stConnected Event.pollFail) Event.connectOk).board_connected = true
    ∧ (step (step stConnected Event.pollFail) Event.connectOk).error_count
        = stConnected.error_count + 1 :=
  c2_amended stConnected rfl

/-- C3, counterexample. The claim says a numeric MQTT output payload is
clamped into [0,100] before the OUTPUT command is forwarded. On the code,
a message on `automation/output/1` with payload `"150"` forwards
`OUTPUT 1 150` — the parsed integer reaches the wire unclamped. -/
theorem c3_counterexample :
    (on_mqtt_message "automation" stConnected "automation/output/1" "150").1.sent
        = ["OUTPUT 1 150"]
    ∧ (on_mqtt_message "automation" stConnected "automation/output/1" "150").1.sent
        ≠ ["OUTPUT 1 100"] := by decide

set_option maxHeartbeats 3200000 in
/-- C3, amended. For an inbound message on `<prefix>/output/<n>` while the
board is connected, the payload maps `ON|TRUE → 100` and `OFF|FALSE → 0`,
and any other payload is parsed with `int()` and forwarded **without
clamping**: whatever integer it parses to is the commanded value on the
wire. -/
theorem c3_amended (topicRoot : String) (st : HostState) (topic pay pay2 : String)
    (n v : Int)
    (hc : st.board_connected = true)
    (hpay : pyUpper (pyStrip pay) = pay2)
    (hrel : pyStartsWith topic (topicRoot ++ "/relay/") = false)
    (hout : pyStartsWith topic (topicRoot ++ "/output/") = true)
    (hn : pyInt? ((pySplitOn topic '/').getLastD "") = some n) :
    ((pay2 = "ON" ∨ pay2 = "TRUE") →
      (on_mqtt_message topicRoot st topic pay).1.sent = st.sent ++ [outputWire n (JVal.i 100)])
    ∧ ((pay2 = "OFF" ∨ pay2 = "FALSE") →
      (on_mqtt_message topicRoot st topic pay).1.sent = st.sent ++ [outputWire n (JVal.i 0)])
    ∧ (pay2 ≠ "ON" → pay2 ≠ "TRUE" → pay2 ≠ "OFF" → pay2 ≠ "FALSE" →
      pyInt? pay2 = some v →
      (on_mqtt_message topicRoot st topic pay).1.sent = st.sent ++ [outputWire n (JVal.i v)]) := by
  unfold on_mqtt_message boardSend
  try dsimp only
  rw [hpay]
  rw [if_neg (by simp [hc])]
  rw [if_neg (by simp [hrel])]
  rw [if_pos (by simp [hout])]
  rw [hn]
  try dsimp only
  refine ⟨?_, ?_, ?_⟩
  · rintro (h | h) <;>
      (rw [if_pos (by simp [h])]
       split
       · next heq => simp at heq
       · next i2 heq =>
           injection heq with h2
           subst h2
           split <;> rfl)
  · rintro (h | h) <;>
      (rw [if_neg (by simp [h]), if_pos (by simp [h])]
       split
       · next heq => simp at heq
       · next i2 heq =>
           injection heq with h2
           subst h2
           split <;> rfl)
  · intro h1 h2 h3 h4 hv
    rw [if_neg (by simp [h1, h2]), if_neg (by simp [h3, h4]), hv]
    split
    · next heq => simp at heq
    · next i2 heq =>
        injection heq with h2
        subst h2
        split <;> rfl

/-- C3, witness: the amended theorem at topic `automation/output/3`,
payload `"150"` — commanded value 150, not clamped to 100. -/
theorem c3_amended_witness :
    (on_mqtt_message "automation" stConnected "automation/output/3" "150").1.sent
        = stConnected.sent ++ [outputWire 3 (JVal.i 150)] :=
  (c3_amended "automation" stConnected "automation/output/3" "150" "150" 3 150
      rfl (by decide) (by decide) (by decide) (by decide)).2.2
    (by decide) (by decide) (by decide) (by decide) (by decide)

/-- C7. A `POST /api/relay/{n}` received while the board is disconnected
is answered `503 {"error": "Board not connected"}`, the service state —
and with it the cached device status served by `GET /api/status` — is left
completely unchanged. -/
theorem c7_disconnected_relay (st : HostState) (n : Int) (reqBody : Option JObj)
    (h : st.board_connected = false) :
    control_relay st n reqBody = (st, notConnectedReply)
    ∧ (control_relay st n reqBody).1.last_status = st.last_status
    ∧ api_status (control_relay st n reqBody).1 = api_status st := by
  have h1 : control_relay st n reqBody = (st, notConnectedReply) := by
    unfold control_relay
    rw [if_pos h]
  exact ⟨h1, by rw [h1], by rw [h1]⟩

/-- C7, witness: Scenario D's concrete request, `POST /api/relay/1` with
body `{"state": false}` against a disconnected board. -/
theorem c7_disconnected_relay_witness :
    control_relay stDisconnected 1 (some [("state", JVal.b false)])
        = (stDisconnected, notConnectedReply)
    ∧ api_status (control_relay stDisconnected 1 (some [("state", JVal.b false)])).1
        = api_status stDisconnected :=
  ⟨(c7_disconnected_relay stDisconnected 1 (some [("state", JVal.b false)]) rfl).1,
   (c7_disconnected_relay stDisconnected 1 (some [("state", JVal.b false)]) rfl).2.2⟩

/-- C8. The MQTT message handler never lets an error escape: it is a total
function whose every outcome leaves the subscription state — the MQTT and
board connection flags, the running flag, and the error counter — exactly
as it was; and a malformed output payload (no keyword, `int()` fails) is
dropped before anything reaches the wire, ending in the logged-and-caught
outcome. -/
theorem c8_mqtt_errors_contained (topicRoot : String) (st : HostState) (topic pay : String) :
    ((on_mqtt_message topicRoot st topic pay).1.board_connected = st.board_connected
      ∧ (on_mqtt_message topicRoot st topic pay).1.mqtt_connected = st.mqtt_connected
      ∧ (on_mqtt_message topicRoot st topic pay).1.running = st.running
      ∧ (on_mqtt_message topicRoot st topic pay).1.error_count = st.error_count)
    ∧ (∀ n : Int, st.board_connected = true →
        pyStartsWith topic (topicRoot ++ "/relay/") = false →
        pyStartsWith topic (topicRoot ++ "/output/") = true →
        pyInt? ((pySplitOn topic '/').getLastD "") = some n →
        pyUpper (pyStrip pay) ≠ "ON" → pyUpper (pyStrip pay) ≠ "TRUE" →
        pyUpper (pyStrip pay) ≠ "OFF" → pyUpper (pyStrip pay) ≠ "FALSE" →
        pyInt? (pyUpper (pyStrip pay)) = none →
        on_mqtt_message topicRoot st topic pay = (st, .caught valueErrorInt)) := by
  constructor
  · obtain ⟨b2, s2, h⟩ := on_mqtt_message_shape topicRoot st topic pay
    rw [h]
    exact ⟨rfl, rfl, rfl, rfl⟩
  · intro n hc hrel hout hn h1 h2 h3 h4 hbad
    unfold on_mqtt_message boardSend
    try dsimp only
    rw [if_neg (by simp [hc])]
    rw [if_neg (by simp [hrel])]
    rw [if_pos (by simp [hout])]
    rw [hn]
    try dsimp only
    rw [if_neg (by simp [h1, h2]), if_neg (by simp [h3, h4]), hbad]

/-- C8, witness: a malformed payload (`"banana"`) on an output topic of a
connected service is caught and dropped, state untouched. -/
theorem c8_mqtt_errors_contained_witness :
    on_mqtt_message "automation" stConnected "automation/output/3" "banana"
      = (stConnected, .caught valueErrorInt) :=
  (c8_mqtt_errors_contained "automation" stConnected "automation/output/3" "banana").2
    3 rfl (by decide) (by decide) (by decide) (by decide) (by decide)
    (by decide) (by decide) (by decide)

/-- C9. The cumulative error count is monotone under every service
operation, a poll failure while connected increments it by exactly one,
and `GET /api/health` reports its current value. -/
theorem c9_error_count_monotone (st : HostState) (e : Event) :
    st.error_count ≤ (step st e).error_count
    ∧ (st.board_connected = true →
        (step st Event.pollFail).error_count = st.error_count + 1)
    ∧ (health st).error_count = st.error_count := by
  refine ⟨?_, ?_, rfl⟩
  · cases e with
    | pollOk s => dsimp only [step]; split <;> simp
    | pollFail => dsimp only [step]; split <;> simp
    | connectOk => dsimp only [step]; split <;> simp
    | connectFail => simp [step]
    | mqttUp => simp [step]
    | mqttDown => simp [step]
    | httpRelay n reqBody =>
        obtain ⟨b2, s2, h⟩ := control_relay_shape st n reqBody
        simp [step, h]
    | httpOutput n reqBody =>
        obtain ⟨b2, s2, h⟩ := control_output_shape st n reqBody
        simp [step, h]
    | httpReset =>
        obtain ⟨b2, s2, h⟩ := api_reset_shape st
        simp [step, h]
    | httpStatus => simp [step]
    | httpHealth => simp [step]
    | mqttMsg topicRoot t p =>
        obtain ⟨b2, s2, h⟩ := on_mqtt_message_shape topicRoot st t p
        simp [step, h]
  · intro h
    simp [step, h]

/-- C9, witness: a poll failure on a connected service bumps the count
from 0 to 1. -/
theorem c9_error_count_monotone_witness :
    (step stConnected Event.pollFail).error_count = stConnected.error_count + 1 :=
  (c9_error_count_monotone stConnected Event.pollFail).2.1 rfl

/-- C10. A write request whose JSON body is missing or lacks the relevant
field actuates the channel with the code's defaults: `data.get("state",
True)` commands the relay ON, `data.get("value", 100)` drives the output
to 100. -/
theorem c10_default_writes (st : HostState) (n : Int) (reqBody : Option JObj)
    (hc : st.board_connected = true)
    (hs : jget (reqBody.getD []) "state" = none)
    (hv : jget (reqBody.getD []) "value" = none) :
    (control_relay st n reqBody).1.sent = st.sent ++ [relayWire n true]
    ∧ (control_output st n reqBody).1.sent = st.sent ++ [outputWire n (JVal.i 100)] := by
  constructor
  · exact control_relay_sent st n reqBody (JVal.b true) hc (by rw [hs]; rfl) (by simp)
  · exact control_output_sent st n reqBody (JVal.i 100) hc (by rw [hv]; rfl) (by simp)

/-- C10, witness: an empty `POST /api/relay/1` / `POST /api/output/1`
against a connected board puts `RELAY 1 ON` / `OUTPUT 1 100` on the wire. -/
theorem c10_default_writes_witness :
    (control_relay stConnected 1 none).1.sent = stConnected.sent ++ [relayWire 1 true]
    ∧ (control_output stConnected 1 none).1.sent
        = stConnected.sent ++ [outputWire 1 (JVal.i 100)] :=
  c10_default_writes stConnected 1 none rfl rfl rfl

end PicoAutomation
